import Mathlib

/-!
Shallow embedding of the PHARS dashboard (`src/app.py`): filter state,
fetch parameters, tabular normalization of the cases payload, the
data-quality evaluation of the Governance tab, and the CSV export of the
Report tab.  Pandas tables are modelled as a column list plus aligned rows
of cells; numeric values are modelled as rationals; dates are modelled as
day numbers obtained from a proleptic-Gregorian day count, so that
differences of day numbers are calendar-day gaps.
-/

namespace PHARS

/-- Quality status badge of the Governance tab: "OK" / "WARNING" / "CRITICAL". -/
inductive Status where
  | OK
  | WARNING
  | CRITICAL
deriving DecidableEq, Repr

/-- Numeric severity of a status: OK < WARNING < CRITICAL. -/
def Status.sev : Status → Nat
  | .OK => 0
  | .WARNING => 1
  | .CRITICAL => 2

/-- Maximum of two statuses under the severity order. -/
def Status.max (a b : Status) : Status :=
  if a.sev ≤ b.sev then b else a

/-- Gregorian leap-year test. -/
def isLeapYear (y : Nat) : Bool :=
  y % 4 == 0 && (y % 100 != 0 || y % 400 == 0)

/-- Number of days of month `m` in year `y`. -/
def daysInMonth (y m : Nat) : Nat :=
  if m == 2 then (if isLeapYear y then 29 else 28)
  else if m == 4 || m == 6 || m == 9 || m == 11 then 30
  else 31

/-- Day count of a proleptic-Gregorian civil date (days since 0000-03-01),
so that subtracting two day numbers yields the gap in calendar days. -/
def daysFromCivil (y m d : Nat) : Nat :=
  let y2 := if m ≤ 2 then y - 1 else y
  let era := y2 / 400
  let yoe := y2 % 400
  let mp := (m + 9) % 12
  let doy := (153 * mp + 2) / 5 + d - 1
  let doe := yoe * 365 + yoe / 4 - yoe / 100 + doy
  era * 146097 + doe

/-- A calendar date as selected in the date-range widget. -/
structure Date where
  year : Nat
  month : Nat
  day : Nat
deriving DecidableEq, Repr

/-- Day number of a date, used for comparisons (`start_date > end_date`). -/
def Date.num (d : Date) : Nat := daysFromCivil d.year d.month d.day

/-- Left-pad the decimal rendering of `n` with zeros to width `w`. -/
def padNum (w n : Nat) : String :=
  let s := toString n
  String.mk (List.replicate (w - s.length) '0') ++ s

/-- ISO-8601 rendering `YYYY-MM-DD` of a date, as produced both by
`strftime("%Y-%m-%d")` and by Python's `str(date)` in the f-strings. -/
def Date.iso (d : Date) : String :=
  padNum 4 d.year ++ "-" ++ padNum 2 d.month ++ "-" ++ padNum 2 d.day

/-- Default location for a level (line 108 of `app.py`):
`"Indonesia" if "Indonesia" in locs else locs[0]`. -/
def default_loc (locs : List String) : String :=
  if "Indonesia" ∈ locs then "Indonesia" else locs.headD ""

/-- Query parameters of a request to the `/cases` endpoint. -/
structure CasesParams where
  level : String
  location : String
  start_s : String
  end_s : String
  limit : Nat
deriving DecidableEq, Repr

/-- Default value of the `limit` keyword parameter of `fetch_cases`
(line 60 of `app.py`: `def fetch_cases(..., limit=6000)`). -/
def fetch_cases_default_limit : Nat := 6000

/-- Parameters sent by `fetch_cases` for an explicit `limit` argument. -/
def fetch_cases_params (level location : String) (s e : Date) (limit : Nat) :
    CasesParams :=
  { level := level, location := location, start_s := s.iso, end_s := e.iso,
    limit := limit }

/-- Parameters sent by `fetch_cases` when the caller omits `limit`,
so the Python default value is used. -/
def fetch_cases_params_default (level location : String) (s e : Date) :
    CasesParams :=
  fetch_cases_params level location s e fetch_cases_default_limit

/-- A scalar JSON value appearing in a raw `/cases` payload row. -/
inductive Raw where
  | null
  | str (s : String)
  | num (q : Rat)
deriving DecidableEq, Repr

/-- A cell of a pandas table: missing (NaN/NaT/None), a coerced datetime
(as a day number), a numeric value, or an uncoerced string. -/
inductive Cell where
  | na
  | date (n : Nat)
  | num (q : Rat)
  | str (s : String)
deriving DecidableEq, Repr

/-- A pandas DataFrame: named columns and rows of cells aligned with them. -/
structure Table where
  cols : List String
  rows : List (List Cell)
deriving DecidableEq, Repr

/-- A raw payload row: field names with their JSON values. -/
structure RawRow where
  fields : List (String × Raw)
deriving DecidableEq, Repr

/-- Value of field `k` of a raw row, if present. -/
def RawRow.lookup (r : RawRow) (k : String) : Option Raw :=
  (r.fields.find? (fun p => p.1 == k)).map Prod.snd

/-- Column list of `pd.DataFrame(list-of-dicts)`: union of the rows' keys
in order of first appearance. -/
def payloadCols (data : List RawRow) : List String :=
  ((data.map (fun r => r.fields.map Prod.fst)).flatten).dedup

/-- Cell obtained from an optional raw JSON value (absent/null become NaN). -/
def rawToCell : Option Raw → Cell
  | none => .na
  | some .null => .na
  | some (.str s) => .str s
  | some (.num q) => .num q

/-- The DataFrame built from the `data` list of the `/cases` payload. -/
def pdDataFrame (data : List RawRow) : Table :=
  let cols := payloadCols data
  { cols := cols,
    rows := data.map (fun r => cols.map (fun c => rawToCell (r.lookup c))) }

/-- Split a character list on dashes (accumulator-based). -/
def splitDashAux : List Char → List Char → List (List Char)
  | [], acc => [acc.reverse]
  | c :: cs, acc =>
    if c == '-' then acc.reverse :: splitDashAux cs []
    else splitDashAux cs (c :: acc)

/-- Components of a string split on the dash character. -/
def splitDash (s : String) : List (List Char) := splitDashAux s.data []

/-- Accumulate decimal digits into a number; fail on a non-digit. -/
def parseNatCharsAux : List Char → Nat → Option Nat
  | [], acc => some acc
  | c :: cs, acc =>
    if c.isDigit then parseNatCharsAux cs (acc * 10 + (c.toNat - 48))
    else none

/-- Parse a non-empty all-digit character list as a natural number. -/
def parseNatChars : List Char → Option Nat
  | [] => none
  | c :: cs => parseNatCharsAux (c :: cs) 0

/-- Parse an optionally minus-signed integer numeral. -/
def parseIntChars : List Char → Option Int
  | '-' :: rest => (parseNatChars rest).map (fun n => -(n : Int))
  | cs => (parseNatChars cs).map (fun n => (n : Int))

/-- Parse a date string in `YYYY-MM-DD` form into a day number, checking
month range and the month's real day count; any malformed string yields
`none` (the model of `errors="coerce"`). -/
def parseDateString (s : String) : Option Nat :=
  match splitDash s with
  | [ys, ms, ds] =>
    match parseNatChars ys, parseNatChars ms, parseNatChars ds with
    | some y, some m, some d =>
      if 1 ≤ y ∧ 1 ≤ m ∧ m ≤ 12 ∧ 1 ≤ d ∧ d ≤ daysInMonth y m then
        some (daysFromCivil y m d)
      else none
    | _, _, _ => none
  | _ => none

/-- Elementwise `pd.to_datetime(·, errors="coerce")`: a parsable date string
becomes a datetime cell, anything else becomes missing (non-string inputs
are modelled as missing). -/
def to_datetime_coerce : Cell → Cell
  | .str s =>
    match parseDateString s with
    | some n => .date n
    | none => .na
  | .date n => .date n
  | _ => .na

/-- Elementwise `pd.to_numeric(·, errors="coerce")` as a numeric-or-missing
value (string numerals are modelled as integer literals; a coerced datetime
is viewed as its day number). -/
def to_numeric_coerce : Cell → Option Rat
  | .num q => some q
  | .str s => (parseIntChars s.data).map (fun n => (n : Rat))
  | .date n => some ((n : Nat) : Rat)
  | .na => none

/-- Numeric coercion as a cell-to-cell map (unparsable values become NaN). -/
def coerceNumCell (c : Cell) : Cell :=
  match to_numeric_coerce c with
  | some q => .num q
  | none => .na

/-- Apply `f` to the cells of the column named `name` in every row. -/
def mapNamedCol (t : Table) (name : String) (f : Cell → Cell) : Table :=
  { t with
    rows := t.rows.map (fun r =>
      (t.cols.zip r).map (fun p => if p.1 = name then f p.2 else p.2)) }

/-- The table returned by `fetch_cases` (lines 60-75 of `app.py`): the
payload's `data` as a DataFrame, with the `date` column coerced to
datetimes when the frame is non-empty and the column exists. -/
def fetch_cases_table (data : List RawRow) : Table :=
  let df := pdDataFrame data
  if df.rows ≠ [] ∧ "date" ∈ df.cols then mapNamedCol df "date" to_datetime_coerce
  else df

/-- The four numeric columns coerced in the Overview tab and checked for
negativity in the Governance tab. -/
def numeric_cols : List String :=
  ["new_cases", "new_deaths", "total_cases", "total_deaths"]

/-- One iteration of the Overview tab's numeric-normalization loop:
coerce column `col` if it is present. -/
def numeric_step (t : Table) (col : String) : Table :=
  if col ∈ t.cols then mapNamedCol t col coerceNumCell else t

/-- Numeric normalization of the Overview tab (lines 158-160 of `app.py`):
each of the four numeric columns present is coerced elementwise. -/
def normalize_numeric (df : Table) : Table :=
  numeric_cols.foldl numeric_step df

/-- Cells of the column named `name`, in row order ([] if absent). -/
def colCells (t : Table) (name : String) : List Cell :=
  match t.cols.findIdx? (fun c => c == name) with
  | some i => t.rows.map (fun r => r.getD i Cell.na)
  | none => []

/-- Whether a cell is missing (`pd.isna`). -/
def Cell.isNa : Cell → Bool
  | .na => true
  | _ => false

/-- State threaded through the Governance tab's quality checks:
the status badge so far and the findings list so far. -/
structure QState where
  status : Status
  issues : List String
deriving DecidableEq, Repr

/-- The escalation step `status = "WARNING" if status == "OK" else status`. -/
def escalateWarning : Status → Status
  | .OK => .WARNING
  | s => s

/-- Columns required by the completeness check. -/
def required_columns : List String := ["date", "location"]

/-- Completeness check (lines 230-234): a missing required column sets the
status to CRITICAL and records a finding naming the missing columns. -/
def completeness_check (df : Table) (q : QState) : QState :=
  let missing := required_columns.filter (fun c => decide (c ∉ df.cols))
  if missing ≠ [] then
    { status := Status.CRITICAL,
      issues := q.issues ++ ["Missing columns: " ++ toString missing] }
  else q

/-- Number of rows whose `date` cell is missing (`df["date"].isna().sum()`). -/
def null_dates (df : Table) : Nat :=
  ((colCells df "date").filter Cell.isNa).length

/-- Date-validity check (lines 237-241): missing dates escalate an OK
status to WARNING and record the count. -/
def date_validity_check (df : Table) (q : QState) : QState :=
  if "date" ∈ df.cols then
    if 0 < null_dates df then
      { status := escalateWarning q.status,
        issues := q.issues ++ ["Invalid date rows: " ++ toString (null_dates df)] }
    else q
  else q

/-- Number of rows of column `col` whose numeric value is negative, with
missing values treated as 0 (`to_numeric(...).fillna(0) < 0`). -/
def neg_count (df : Table) (col : String) : Nat :=
  ((colCells df col).filter
    (fun c => decide ((to_numeric_coerce c).getD 0 < 0))).length

/-- One iteration of the non-negativity loop: a positive count of negative
values in a present column escalates an OK status to WARNING and records
one finding naming the column and the count. -/
def negative_step (df : Table) (st : QState) (col : String) : QState :=
  if col ∈ df.cols then
    if 0 < neg_count df col then
      { status := escalateWarning st.status,
        issues := st.issues ++
          ["Negative values detected in " ++ col ++ ": " ++
             toString (neg_count df col)] }
    else st
  else st

/-- Non-negativity check (lines 244-249): the loop over the four numeric
column names. -/
def negative_checks (df : Table) (q : QState) : QState :=
  numeric_cols.foldl (negative_step df) q

/-- Maximum valid datetime of the `date` column (`df["date"].max()`,
which skips missing values), if any. -/
def maxValidDate (df : Table) : Option Nat :=
  ((colCells df "date").filterMap
    (fun c => match c with | .date n => some n | _ => none)).max?

/-- Timeliness check (lines 252-257): when a maximum valid date exists and
is more than 30 days before `today`, escalate an OK status to WARNING and
record the gap; with no valid date the check is skipped. -/
def timeliness_check (df : Table) (today : Nat) (q : QState) : QState :=
  match maxValidDate df with
  | none => q
  | some latest =>
    let gap : Int := (today : Int) - (latest : Int)
    if 30 < gap then
      { status := escalateWarning q.status,
        issues := q.issues ++
          ["Data timeliness warning: latest record is " ++ toString gap ++
             " days old."] }
    else q

/-- The Governance tab's full quality evaluation: the four checks applied
in their fixed order, starting from OK and no findings. -/
def quality_eval (df : Table) (today : Nat) : QState :=
  timeliness_check df today
    (negative_checks df (date_validity_check df (completeness_check df ⟨.OK, []⟩)))

/-- Findings text rendered by the Governance tab (lines 267-272): the
findings when any exist, else the explicit no-issues line. -/
def governance_findings_text (q : QState) : List String :=
  if q.issues ≠ [] then q.issues
  else ["No quality issues detected for the selected window."]

/-- Findings the completeness check would record on its own. -/
def completeness_findings (df : Table) : List String :=
  let missing := required_columns.filter (fun c => decide (c ∉ df.cols))
  if missing ≠ [] then ["Missing columns: " ++ toString missing] else []

/-- Severity the completeness check raises on its own, starting from OK. -/
def completeness_sev (df : Table) : Status :=
  if required_columns.filter (fun c => decide (c ∉ df.cols)) ≠ [] then
    Status.CRITICAL
  else Status.OK

/-- Findings the date-validity check would record on its own. -/
def date_validity_findings (df : Table) : List String :=
  if "date" ∈ df.cols ∧ 0 < null_dates df then
    ["Invalid date rows: " ++ toString (null_dates df)]
  else []

/-- Severity the date-validity check raises on its own, starting from OK. -/
def date_validity_sev (df : Table) : Status :=
  if "date" ∈ df.cols ∧ 0 < null_dates df then Status.WARNING else Status.OK

/-- Whether any of the given columns is present with a positive count of
negative values. -/
def negFiredAny (df : Table) (cs : List String) : Bool :=
  cs.any (fun col => decide (col ∈ df.cols ∧ 0 < neg_count df col))

/-- Findings the non-negativity loop would record over the given columns:
one per offending present column, in column order, naming it and its count. -/
def negative_findings_for (df : Table) (cs : List String) : List String :=
  (cs.filter (fun col => decide (col ∈ df.cols ∧ 0 < neg_count df col))).map
    (fun col => "Negative values detected in " ++ col ++ ": " ++
      toString (neg_count df col))

/-- Findings the non-negativity check would record on its own. -/
def negative_findings (df : Table) : List String :=
  negative_findings_for df numeric_cols

/-- Severity the non-negativity check raises on its own, starting from OK. -/
def negative_checks_sev (df : Table) : Status :=
  if negFiredAny df numeric_cols then Status.WARNING else Status.OK

/-- Findings the timeliness check would record on its own. -/
def timeliness_findings (df : Table) (today : Nat) : List String :=
  match maxValidDate df with
  | none => []
  | some latest =>
    if 30 < (today : Int) - (latest : Int) then
      ["Data timeliness warning: latest record is " ++
         toString ((today : Int) - (latest : Int)) ++ " days old."]
    else []

/-- Severity the timeliness check raises on its own, starting from OK. -/
def timeliness_sev (df : Table) (today : Nat) : Status :=
  match maxValidDate df with
  | none => Status.OK
  | some latest =>
    if 30 < (today : Int) - (latest : Int) then Status.WARNING else Status.OK

/-- Concrete one-row table of the non-negativity scenario: `new_deaths`
holds `-5` in exactly one row. -/
def c5_df : Table :=
  { cols := ["date", "location", "new_deaths"],
    rows := [[Cell.date 738551, Cell.str "Indonesia", Cell.num (-5)]] }

/-- Evaluation day for the non-negativity scenario (same day as the one
record, so the timeliness check does not fire). -/
def c5_today : Nat := 738551

/-- Concrete two-row table for exercising the CSV export: rows given out
of date order, one numeric cell missing. -/
def c8_df : Table :=
  { cols := ["date", "location", "new_cases"],
    rows := [[Cell.date 738551, Cell.str "Indonesia", Cell.num 5],
             [Cell.date 738550, Cell.str "Indonesia", Cell.na]] }

/-- Kind of a user-visible notice (`st.error` vs `st.warning`). -/
inductive NoticeKind where
  | error
  | warning
deriving DecidableEq, Repr

/-- A user-visible notice surfaced during an evaluation pass. -/
structure Notice where
  kind : NoticeKind
  text : String
deriving DecidableEq, Repr

/-- A network request issued during an evaluation pass. -/
inductive FetchCall where
  | summary (level location start_s end_s : String)
  | cases (level location start_s end_s : String) (limit : Nat)
deriving DecidableEq, Repr

/-- A content section the dashboard can render after a successful pass. -/
inductive ViewSection where
  | kpi
  | overview_charts
  | report_export
  | governance_quality
deriving DecidableEq, Repr

/-- Inputs to one evaluation pass: the session metadata, the user's filter
selections, and the `/cases` payload the API would return for them. -/
structure PassInput where
  levels : List String
  locations_by_level : List (String × List String)
  level : String
  chosen_loc : Option String
  start_date : Date
  end_date : Date
  cases_data : List RawRow
deriving Repr

/-- Observable outcome of one evaluation pass: the notices surfaced, the
network calls issued, the content sections rendered, and whether the pass
halted early (`st.stop`). -/
structure PassResult where
  notices : List Notice
  fetches : List FetchCall
  sections : List ViewSection
  halted : Bool
deriving DecidableEq, Repr

/-- Location list of a level: `locations_by_level.get(level, [])`. -/
def lookupLevel (m : List (String × List String)) (level : String) : List String :=
  ((m.find? (fun p => p.1 == level)).map Prod.snd).getD []

/-- One evaluation pass of the script body after metadata load
(lines 100-272 of `app.py`): guard against an empty location list, pick
the location, validate the date range, fetch summary and cases, and
either short-circuit on an empty table or render all sections. -/
def run_pass (inp : PassInput) : PassResult :=
  let locs := lookupLevel inp.locations_by_level inp.level
  if locs = [] then
    { notices := [⟨.warning, "Tidak ada location untuk level ini."⟩],
      fetches := [], sections := [], halted := true }
  else
    let location :=
      match inp.chosen_loc with
      | some l => if l ∈ locs then l else default_loc locs
      | none => default_loc locs
    if inp.end_date.num < inp.start_date.num then
      { notices := [⟨.error, "Start date tidak boleh lebih besar dari end date."⟩],
        fetches := [], sections := [], halted := true }
    else
      let fetches :=
        [FetchCall.summary inp.level location inp.start_date.iso inp.end_date.iso,
         FetchCall.cases inp.level location inp.start_date.iso inp.end_date.iso 8000]
      let df := fetch_cases_table inp.cases_data
      if df.rows = [] ∨ df.cols = [] then
        { notices := [⟨.warning,
            "Tidak ada data untuk filter yang dipilih. Coba ganti level/location atau rentang tanggal."⟩],
          fetches := fetches, sections := [], halted := true }
      else
        { notices := [], fetches := fetches,
          sections := [.kpi, .overview_charts, .report_export, .governance_quality],
          halted := false }

/-- Whether a cell string needs CSV quoting (contains a comma, a double
quote, or a newline), as in minimal CSV quoting. -/
def needsQuote (s : String) : Bool :=
  s.data.any (fun c => c == ',' || c == '"' || c == '\n')

/-- Double every double quote of a quoted CSV cell body. -/
def escapeQuotes : List Char → List Char
  | [] => []
  | c :: cs =>
    if c == '"' then '"' :: '"' :: escapeQuotes cs else c :: escapeQuotes cs

/-- Characters of one serialized CSV cell. -/
def renderCellChars (s : String) : List Char :=
  if needsQuote s then '"' :: (escapeQuotes s.data ++ ['"']) else s.data

/-- Characters of one serialized CSV line: cells joined by commas. -/
def renderRowChars : List String → List Char
  | [] => []
  | [c] => renderCellChars c
  | c :: cs => renderCellChars c ++ ',' :: renderRowChars cs

/-- Characters of a serialized CSV document: lines joined by newlines. -/
def renderCsvChars : List (List String) → List Char
  | [] => []
  | [r] => renderRowChars r
  | r :: rs => renderRowChars r ++ '\n' :: renderCsvChars rs

/-- Parse one unquoted CSV cell: consume until a comma, a newline, or the
end of input; return the cell's characters and the unconsumed rest. -/
def parseUnquoted : List Char → List Char × List Char
  | [] => ([], [])
  | c :: cs =>
    if c == ',' || c == '\n' then ([], c :: cs)
    else
      let p := parseUnquoted cs
      (c :: p.1, p.2)

/-- Parse the body of a quoted CSV cell (after its opening quote): a
doubled quote stands for one quote, a single quote closes the cell. -/
def parseQuoted : List Char → List Char × List Char
  | [] => ([], [])
  | c :: cs =>
    if c == '"' then
      match cs with
      | c2 :: cs2 =>
        if c2 == '"' then
          let p := parseQuoted cs2
          ('"' :: p.1, p.2)
        else ([], cs)
      | [] => ([], [])
    else
      let p := parseQuoted cs
      (c :: p.1, p.2)

/-- Parse one CSV cell, quoted or unquoted. -/
def parseCell : List Char → List Char × List Char
  | [] => ([], [])
  | c :: cs => if c == '"' then parseQuoted cs else parseUnquoted (c :: cs)

theorem parseUnquoted_rest_length (cs : List Char) :
    (parseUnquoted cs).2.length ≤ cs.length := by
  induction cs with
  | nil => simp [parseUnquoted]
  | cons c cs ih =>
    simp only [parseUnquoted]
    split
    · simp
    · simpa using Nat.le_succ_of_le ih

theorem parseQuoted_rest_length : ∀ cs : List Char,
    (parseQuoted cs).2.length ≤ cs.length
  | [] => by simp [parseQuoted]
  | [c] => by
    by_cases h : c == '"' <;> simp [parseQuoted, h]
  | c :: c2 :: cs2 => by
    have ih2 := parseQuoted_rest_length cs2
    have ih1 := parseQuoted_rest_length (c2 :: cs2)
    by_cases h : c == '"'
    · by_cases h2 : c2 == '"'
      · simp only [parseQuoted, h, h2, if_true]
        simp only [List.length_cons]
        omega
      · simp [parseQuoted, h, h2]
    · have hf : (c == '"') = false := by simpa using h
      simp only [parseQuoted, hf, Bool.false_eq_true, if_false]
      simp only [List.length_cons] at ih1 ⊢
      omega

theorem parseCell_rest_length (cs : List Char) :
    (parseCell cs).2.length ≤ cs.length := by
  cases cs with
  | nil => simp [parseCell]
  | cons c cs =>
    simp only [parseCell]
    split
    · exact Nat.le_succ_of_le (parseQuoted_rest_length cs)
    · exact parseUnquoted_rest_length (c :: cs)

/-- Parse a CSV document into its rows of cells. -/
def parseCsvList (cs : List Char) : List (List String) :=
  let p := parseCell cs
  let cell := String.mk p.1
  match h : p.2 with
  | [] => [[cell]]
  | c :: rest =>
    if c == ',' then
      match parseCsvList rest with
      | [] => [[cell]]
      | r :: rs => (cell :: r) :: rs
    else
      [cell] :: parseCsvList rest
termination_by cs.length
decreasing_by
  all_goals
    have hlen := parseCell_rest_length cs
    rw [h] at hlen
    simp at hlen
    omega

/-- Parse a CSV document given as a string. -/
def parseCsv (s : String) : List (List String) :=
  parseCsvList s.data

/-- Comparison key used by `sort_values("date")`: ascending by the coerced
date, with missing dates placed last (pandas' default `na_position`). -/
def dateKeyLe (a b : Option Nat) : Bool :=
  match a, b with
  | some x, some y => decide (x ≤ y)
  | some _, none => true
  | none, some _ => false
  | none, none => true

/-- The coerced date of a row, if its `date` cell holds one. -/
def rowDate (cols : List String) (r : List Cell) : Option Nat :=
  match cols.findIdx? (fun c => c == "date") with
  | some i =>
    match r.getD i Cell.na with
    | .date n => some n
    | _ => none
  | none => none

/-- Rows reordered ascending by the date key: the successful outcome of
`df.sort_values("date")`. -/
def sorted_by_date (t : Table) : Table :=
  { t with
    rows := t.rows.mergeSort
      (fun a b => dateKeyLe (rowDate t.cols a) (rowDate t.cols b)) }

/-- `df.sort_values("date")` (app.py:210, also 164/170/185): sorting by a
column that is absent from the frame raises `KeyError`, modelled as
`none`; otherwise the sorted frame is returned. -/
def sort_values_date (t : Table) : Option Table :=
  if "date" ∈ t.cols then some (sorted_by_date t) else none

/-- Textual rendering of a cell in the CSV export (missing cells render
as the empty string; date and numeric formats are modelled abstractly). -/
def csvCellText : Cell → String
  | .na => ""
  | .date n => toString n
  | .num q => toString q
  | .str s => s

/-- The data lines of a successfully sorted CSV export: rows sorted
ascending by date, each cell rendered as text. -/
def export_cell_rows (t : Table) : List (List String) :=
  (sorted_by_date t).rows.map (fun r => r.map csvCellText)

/-- The string of `export_df.to_csv(index=False)` (lines 210-211): a
header line with the original column names, then the sorted data rows;
`none` when the sort itself raised. -/
def export_csv_string (t : Table) : Option String :=
  (sort_values_date t).map
    (fun st => String.mk (renderCsvChars (st.cols :: st.rows.map
      (fun r => r.map csvCellText))))

/-- The downloaded byte sequence: the UTF-8 encoding of the CSV text
(`.encode("utf-8")`, line 211), absent when the export raised. -/
def export_csv_bytes (t : Table) : Option ByteArray :=
  (export_csv_string t).map String.toUTF8

/-- The download file name (line 216):
`PHARS_Report_{level}_{location}_{start_date}_{end_date}.csv`. -/
def export_file_name (level location : String) (s e : Date) : String :=
  "PHARS_Report_" ++ level ++ "_" ++ location ++ "_" ++ s.iso ++ "_" ++
    e.iso ++ ".csv"

theorem Status.max_ok_left (s : Status) : Status.max .OK s = s := by
  cases s <;> rfl

theorem Status.max_ok_right (s : Status) : Status.max s .OK = s := by
  cases s <;> rfl

theorem Status.max_crit_right (s : Status) : Status.max s .CRITICAL = .CRITICAL := by
  cases s <;> rfl

theorem Status.max_right_idem (a b : Status) :
    Status.max (Status.max a b) b = Status.max a b := by
  cases a <;> cases b <;> rfl

theorem Status.sev_le_max_left (a b : Status) : a.sev ≤ (Status.max a b).sev := by
  cases a <;> cases b <;> simp [Status.max, Status.sev]

theorem escalateWarning_eq_max (s : Status) :
    escalateWarning s = Status.max s .WARNING := by
  cases s <;> rfl

theorem warn_le_escalateWarning (s : Status) :
    Status.WARNING.sev ≤ (escalateWarning s).sev := by
  cases s <;> simp [escalateWarning, Status.sev]

theorem completeness_check_eq (df : Table) (q : QState) :
    completeness_check df q =
      ⟨Status.max q.status (completeness_sev df),
       q.issues ++ completeness_findings df⟩ := by
  unfold completeness_check completeness_sev completeness_findings
  by_cases hx : ∃ x ∈ required_columns, x ∉ df.cols
  · simp [hx, Status.max_crit_right]
  · simp [hx, Status.max_ok_right]

theorem date_validity_check_eq (df : Table) (q : QState) :
    date_validity_check df q =
      ⟨Status.max q.status (date_validity_sev df),
       q.issues ++ date_validity_findings df⟩ := by
  unfold date_validity_check date_validity_sev date_validity_findings
  by_cases hd : "date" ∈ df.cols
  · by_cases hn : 0 < null_dates df
    · simp [hd, hn, escalateWarning_eq_max]
    · simp [hd, hn, Status.max_ok_right]
  · simp [hd, Status.max_ok_right]

theorem negative_checks_foldl_eq (df : Table) :
    ∀ (cs : List String) (q : QState),
      cs.foldl (negative_step df) q =
        ⟨Status.max q.status (if negFiredAny df cs then .WARNING else .OK),
         q.issues ++ negative_findings_for df cs⟩ := by
  intro cs
  induction cs with
  | nil =>
    intro q
    simp [negFiredAny, negative_findings_for, Status.max_ok_right]
  | cons c cs ih =>
    intro q
    simp only [List.foldl_cons]
    rw [ih]
    by_cases hc : c ∈ df.cols ∧ 0 < neg_count df c
    · have hstep : negative_step df q c =
          ⟨escalateWarning q.status,
           q.issues ++ ["Negative values detected in " ++ c ++ ": " ++
             toString (neg_count df c)]⟩ := by
        unfold negative_step
        simp [hc.1, hc.2]
      rw [hstep]
      have hfired : negFiredAny df (c :: cs) = true := by
        simp [negFiredAny, hc]
      have hfind : negative_findings_for df (c :: cs) =
          ("Negative values detected in " ++ c ++ ": " ++
            toString (neg_count df c)) :: negative_findings_for df cs := by
        unfold negative_findings_for
        simp [hc]
      rw [hfired, hfind]
      simp only [if_true]
      refine congrArg₂ QState.mk ?_ ?_
      · rw [escalateWarning_eq_max]
        by_cases hrest : negFiredAny df cs
        · simp [hrest, Status.max_right_idem]
        · simp [hrest, Status.max_ok_right]
      · simp
    · have hstep : negative_step df q c = q := by
        unfold negative_step
        by_cases h1 : c ∈ df.cols
        · have h2 : ¬ 0 < neg_count df c := fun h => hc ⟨h1, h⟩
          simp [h1, h2]
        · simp [h1]
      rw [hstep]
      have hfired : negFiredAny df (c :: cs) = negFiredAny df cs := by
        simp [negFiredAny, hc]
      have hfind : negative_findings_for df (c :: cs) = negative_findings_for df cs := by
        unfold negative_findings_for
        simp [hc]
      rw [hfired, hfind]

theorem negative_checks_eq (df : Table) (q : QState) :
    negative_checks df q =
      ⟨Status.max q.status (negative_checks_sev df),
       q.issues ++ negative_findings df⟩ := by
  unfold negative_checks negative_checks_sev negative_findings
  exact negative_checks_foldl_eq df numeric_cols q

theorem timeliness_check_eq (df : Table) (today : Nat) (q : QState) :
    timeliness_check df today q =
      ⟨Status.max q.status (timeliness_sev df today),
       q.issues ++ timeliness_findings df today⟩ := by
  unfold timeliness_check timeliness_sev timeliness_findings
  cases hm : maxValidDate df with
  | none => simp [Status.max_ok_right]
  | some latest =>
    by_cases hg : 30 < (today : Int) - (latest : Int)
    · simp [hg, escalateWarning_eq_max]
    · simp [hg, Status.max_ok_right]

theorem quality_eval_eq (df : Table) (today : Nat) :
    quality_eval df today =
      ⟨Status.max (Status.max (Status.max (completeness_sev df)
          (date_validity_sev df)) (negative_checks_sev df))
          (timeliness_sev df today),
       completeness_findings df ++ date_validity_findings df ++
         negative_findings df ++ timeliness_findings df today⟩ := by
  unfold quality_eval
  rw [completeness_check_eq, date_validity_check_eq, negative_checks_eq,
    timeliness_check_eq]
  simp [Status.max_ok_left, List.append_assoc]

/-- C1: within one quality-evaluation pass the four checks run in the fixed
order completeness, date validity, non-negativity, timeliness; each check
can only raise the severity (its output severity is at least its input
severity, for every intermediate state); the final status is the maximum
severity raised across the checks; the findings list is the concatenation
of the checks' findings in execution order; and when no findings exist the
rendered result is the explicit no-issues line. -/
theorem C1_quality_pass_escalation (df : Table) (today : Nat) :
    (quality_eval df today).status =
      Status.max (Status.max (Status.max (completeness_sev df)
        (date_validity_sev df)) (negative_checks_sev df))
        (timeliness_sev df today)
  ∧ (quality_eval df today).issues =
      completeness_findings df ++ date_validity_findings df ++
        negative_findings df ++ timeliness_findings df today
  ∧ (∀ q : QState, q.status.sev ≤ (completeness_check df q).status.sev)
  ∧ (∀ q : QState, q.status.sev ≤ (date_validity_check df q).status.sev)
  ∧ (∀ q : QState, q.status.sev ≤ (negative_checks df q).status.sev)
  ∧ (∀ q : QState, q.status.sev ≤ (timeliness_check df today q).status.sev)
  ∧ governance_findings_text (quality_eval df today) =
      (if (quality_eval df today).issues = [] then
        ["No quality issues detected for the selected window."]
      else (quality_eval df today).issues) := by
  refine ⟨?_, ?_, ?_, ?_, ?_, ?_, ?_⟩
  · rw [quality_eval_eq]
  · rw [quality_eval_eq]
  · intro q
    rw [completeness_check_eq]
    exact Status.sev_le_max_left _ _
  · intro q
    rw [date_validity_check_eq]
    exact Status.sev_le_max_left _ _
  · intro q
    rw [negative_checks_eq]
    exact Status.sev_le_max_left _ _
  · intro q
    rw [timeliness_check_eq]
    exact Status.sev_le_max_left _ _
  · unfold governance_findings_text
    by_cases h : (quality_eval df today).issues = [] <;> simp [h]

/-- C5: the non-negativity check considers exactly the four numeric columns
present in the schema, counts rows whose numeric value (missing read as 0)
is negative, records one finding per offending column naming it with its
count, and escalates the status to at least WARNING; on the concrete table
where `new_deaths` is -5 in exactly one row it yields the finding
naming `new_deaths` with count 1 and a WARNING status. -/
theorem C5_negative_check (df : Table) (q : QState) :
    negative_checks df q =
      ⟨Status.max q.status (negative_checks_sev df),
       q.issues ++ negative_findings df⟩
  ∧ negative_findings df =
      (numeric_cols.filter
        (fun col => decide (col ∈ df.cols ∧ 0 < neg_count df col))).map
        (fun col => "Negative values detected in " ++ col ++ ": " ++
          toString (neg_count df col))
  ∧ (∀ s : Status, Status.WARNING.sev ≤ (escalateWarning s).sev)
  ∧ neg_count c5_df "new_deaths" = 1
  ∧ negative_checks c5_df ⟨Status.OK, []⟩ =
      ⟨Status.WARNING,
       ["Negative values detected in " ++ "new_deaths" ++ ": " ++ toString 1]⟩
  ∧ quality_eval c5_df c5_today =
      ⟨Status.WARNING, ["Negative values detected in new_deaths: 1"]⟩ := by
  refine ⟨negative_checks_eq df q, rfl, warn_le_escalateWarning, ?_, ?_, ?_⟩
  · decide
  · decide
  · decide

/-- C6: the timeliness check fires exactly when a maximum valid date exists
and lies more than 30 days before the current date; when it fires it makes
the final status at least WARNING and appends one finding recording the gap
in days; when no valid date exists the check is skipped entirely and the
evaluation result is exactly that of the first three checks. -/
theorem C6_timeliness (df : Table) (today : Nat) :
    (maxValidDate df = none →
      quality_eval df today =
        negative_checks df (date_validity_check df
          (completeness_check df ⟨Status.OK, []⟩)))
  ∧ (∀ latest : Nat, maxValidDate df = some latest →
      30 < (today : Int) - (latest : Int) →
        Status.WARNING.sev ≤ (quality_eval df today).status.sev
      ∧ (quality_eval df today).issues =
          (negative_checks df (date_validity_check df
            (completeness_check df ⟨Status.OK, []⟩))).issues ++
            ["Data timeliness warning: latest record is " ++
               toString ((today : Int) - (latest : Int)) ++ " days old."])
  ∧ (∀ latest : Nat, maxValidDate df = some latest →
      ¬ 30 < (today : Int) - (latest : Int) →
        quality_eval df today =
          negative_checks df (date_validity_check df
            (completeness_check df ⟨Status.OK, []⟩))) := by
  refine ⟨?_, ?_, ?_⟩
  · intro hnone
    unfold quality_eval timeliness_check
    rw [hnone]
  · intro latest hsome hgap
    constructor
    · show Status.WARNING.sev ≤ (timeliness_check df today _).status.sev
      unfold timeliness_check
      rw [hsome]
      simp only [hgap, if_true]
      exact warn_le_escalateWarning _
    · show (timeliness_check df today _).issues = _
      unfold timeliness_check
      rw [hsome]
      simp only [hgap, if_true]
  · intro latest hsome hgap
    unfold quality_eval timeliness_check
    rw [hsome]
    simp only [hgap, if_false]

/-- Witness for C6 at concrete inputs: a table with no valid date skips
the timeliness check; a table whose latest record is 100 days old fires
it; a table whose latest record is today does not. -/
theorem C6_timeliness_witness :
    quality_eval ⟨["date", "location"], [[Cell.na, Cell.str "X"]]⟩ 200 =
      negative_checks ⟨["date", "location"], [[Cell.na, Cell.str "X"]]⟩
        (date_validity_check ⟨["date", "location"], [[Cell.na, Cell.str "X"]]⟩
          (completeness_check ⟨["date", "location"], [[Cell.na, Cell.str "X"]]⟩
            ⟨Status.OK, []⟩))
  ∧ (Status.WARNING.sev ≤
      (quality_eval ⟨["date", "location"], [[Cell.date 100, Cell.str "X"]]⟩ 200).status.sev
    ∧ (quality_eval ⟨["date", "location"], [[Cell.date 100, Cell.str "X"]]⟩ 200).issues =
        (negative_checks ⟨["date", "location"], [[Cell.date 100, Cell.str "X"]]⟩
          (date_validity_check ⟨["date", "location"], [[Cell.date 100, Cell.str "X"]]⟩
            (completeness_check ⟨["date", "location"], [[Cell.date 100, Cell.str "X"]]⟩
              ⟨Status.OK, []⟩))).issues ++
          ["Data timeliness warning: latest record is " ++
             toString ((200 : Int) - (100 : Int)) ++ " days old."])
  ∧ quality_eval ⟨["date", "location"], [[Cell.date 100, Cell.str "X"]]⟩ 120 =
      negative_checks ⟨["date", "location"], [[Cell.date 100, Cell.str "X"]]⟩
        (date_validity_check ⟨["date", "location"], [[Cell.date 100, Cell.str "X"]]⟩
          (completeness_check ⟨["date", "location"], [[Cell.date 100, Cell.str "X"]]⟩
            ⟨Status.OK, []⟩)) :=
  ⟨(C6_timeliness ⟨["date", "location"], [[Cell.na, Cell.str "X"]]⟩ 200).1 (by decide),
   (C6_timeliness ⟨["date", "location"], [[Cell.date 100, Cell.str "X"]]⟩ 200).2.1
     100 (by decide) (by decide),
   (C6_timeliness ⟨["date", "location"], [[Cell.date 100, Cell.str "X"]]⟩ 120).2.2
     100 (by decide) (by decide)⟩

theorem mapNamedCol_rows_length (t : Table) (name : String) (f : Cell → Cell) :
    (mapNamedCol t name f).rows.length = t.rows.length := by
  simp [mapNamedCol]

theorem fetch_cases_table_length (data : List RawRow) :
    (fetch_cases_table data).rows.length = data.length := by
  simp only [fetch_cases_table]
  split
  · rw [mapNamedCol_rows_length]
    simp [pdDataFrame]
  · simp [pdDataFrame]

theorem numeric_step_rows_length (t : Table) (col : String) :
    (numeric_step t col).rows.length = t.rows.length := by
  unfold numeric_step
  split
  · exact mapNamedCol_rows_length t col coerceNumCell
  · rfl

theorem normalize_foldl_rows_length (cs : List String) :
    ∀ df : Table, (cs.foldl numeric_step df).rows.length = df.rows.length := by
  induction cs with
  | nil => intro df; rfl
  | cons c cs ih =>
    intro df
    simp only [List.foldl_cons]
    rw [ih (numeric_step df c), numeric_step_rows_length]

theorem normalize_numeric_rows_length (df : Table) :
    (normalize_numeric df).rows.length = df.rows.length :=
  normalize_foldl_rows_length numeric_cols df

/-- C3: normalization of a raw cases payload preserves the row count for
every payload; an empty payload yields an empty table rather than an
error; date coercion is total and always yields a date-or-missing cell,
sending malformed date strings (including impossible calendar dates) to
missing; numeric coercion is total and always yields a numeric-or-missing
cell, sending malformed numerals to missing; and the Overview tab's
numeric normalization also preserves the row count of every table. -/
theorem C3_normalize_preserves_rows (data : List RawRow) :
    (fetch_cases_table data).rows.length = data.length
  ∧ fetch_cases_table [] = ⟨[], []⟩
  ∧ (∀ c : Cell, to_datetime_coerce c = Cell.na ∨
      ∃ n, to_datetime_coerce c = Cell.date n)
  ∧ to_datetime_coerce (Cell.str "not-a-date") = Cell.na
  ∧ to_datetime_coerce (Cell.str "2021-02-30") = Cell.na
  ∧ to_datetime_coerce (Cell.str "2021-02-28") = Cell.date (daysFromCivil 2021 2 28)
  ∧ (∀ c : Cell, coerceNumCell c = Cell.na ∨ ∃ q, coerceNumCell c = Cell.num q)
  ∧ coerceNumCell (Cell.str "abc") = Cell.na
  ∧ (∀ df : Table, (normalize_numeric df).rows.length = df.rows.length) := by
  refine ⟨fetch_cases_table_length data, by decide, ?_, by decide, by decide,
    by decide, ?_, by decide, normalize_numeric_rows_length⟩
  · intro c
    cases c with
    | na => exact Or.inl rfl
    | date n => exact Or.inr ⟨n, rfl⟩
    | num q => exact Or.inl rfl
    | str s =>
      cases h : parseDateString s with
      | none => exact Or.inl (by simp [to_datetime_coerce, h])
      | some n => exact Or.inr ⟨n, by simp [to_datetime_coerce, h]⟩
  · intro c
    cases h : to_numeric_coerce c with
    | none => exact Or.inl (by simp [coerceNumCell, h])
    | some q => exact Or.inr ⟨q, by simp [coerceNumCell, h]⟩

/-- C7: for a non-empty location list, the default location is Indonesia
when present and otherwise the first entry, and it is always a member of
the list. -/
theorem C7_default_location (locs : List String) (h : locs ≠ []) :
    default_loc locs =
      (if "Indonesia" ∈ locs then "Indonesia" else locs.headD "")
  ∧ default_loc locs ∈ locs := by
  refine ⟨rfl, ?_⟩
  unfold default_loc
  split
  · assumption
  · cases locs with
    | nil => exact absurd rfl h
    | cons a l => exact List.mem_cons_self a l

/-- Witness for C7: the spec's scenario list resolves to Indonesia, and a
list without Indonesia resolves to its first entry, a member either way. -/
theorem C7_default_location_witness :
    default_loc ["Indonesia", "USA"] = "Indonesia"
  ∧ default_loc ["Indonesia", "USA"] ∈ ["Indonesia", "USA"]
  ∧ default_loc ["USA", "Japan"] ∈ ["USA", "Japan"] :=
  ⟨by decide,
   (C7_default_location ["Indonesia", "USA"] (by decide)).2,
   (C7_default_location ["USA", "Japan"] (by decide)).2⟩

/-- C10: when the selected level has no entry (or an empty entry) in
`locations_by_level`, the pass halts with a single user-visible warning
before any network call: no fetch is issued, no section is rendered, and
no exception is raised. -/
theorem C10_empty_locations_guard (inp : PassInput)
    (h : lookupLevel inp.locations_by_level inp.level = []) :
    run_pass inp =
      ⟨[⟨NoticeKind.warning, "Tidak ada location untuk level ini."⟩],
       [], [], true⟩ := by
  simp [run_pass, h]

/-- Witness for C10 at a concrete input whose level is absent from the
location mapping. -/
theorem C10_empty_locations_guard_witness :
    run_pass
      { levels := ["Country"],
        locations_by_level := [("Country", ["Indonesia"])],
        level := "Region", chosen_loc := none,
        start_date := ⟨2023, 1, 1⟩, end_date := ⟨2023, 2, 1⟩,
        cases_data := [] } =
      ⟨[⟨NoticeKind.warning, "Tidak ada location untuk level ini."⟩],
       [], [], true⟩ :=
  C10_empty_locations_guard _ (by decide)

/-- C2: whenever the selected start date is after the end date, the pass
halts with the invalid-range error and performs neither the summary fetch
nor the cases fetch. -/
theorem C2_invalid_range_blocks_fetch (inp : PassInput)
    (hlocs : lookupLevel inp.locations_by_level inp.level ≠ [])
    (hrange : inp.end_date.num < inp.start_date.num) :
    run_pass inp =
      ⟨[⟨NoticeKind.error, "Start date tidak boleh lebih besar dari end date."⟩],
       [], [], true⟩
  ∧ (run_pass inp).fetches = [] := by
  have hmain : run_pass inp =
      ⟨[⟨NoticeKind.error, "Start date tidak boleh lebih besar dari end date."⟩],
       [], [], true⟩ := by
    simp only [run_pass]
    rw [if_neg hlocs, if_pos hrange]
  exact ⟨hmain, by rw [hmain]⟩

/-- Witness for C2 at the spec's scenario dates 2023-02-01 > 2023-01-01. -/
theorem C2_invalid_range_blocks_fetch_witness :
    run_pass
      { levels := ["Country"],
        locations_by_level := [("Country", ["Indonesia"])],
        level := "Country", chosen_loc := none,
        start_date := ⟨2023, 2, 1⟩, end_date := ⟨2023, 1, 1⟩,
        cases_data := [] } =
      ⟨[⟨NoticeKind.error, "Start date tidak boleh lebih besar dari end date."⟩],
       [], [], true⟩ :=
  (C2_invalid_range_blocks_fetch _ (by decide) (by decide)).1

/-- C4: when the fetched case table is empty, composition short-circuits:
exactly one "no data" warning is surfaced and the KPI, chart, report and
quality sections are all skipped. -/
theorem C4_empty_data_short_circuit (inp : PassInput)
    (hlocs : lookupLevel inp.locations_by_level inp.level ≠ [])
    (hrange : ¬ inp.end_date.num < inp.start_date.num)
    (hempty : (fetch_cases_table inp.cases_data).rows = [] ∨
      (fetch_cases_table inp.cases_data).cols = []) :
    (run_pass inp).notices =
      [⟨NoticeKind.warning,
        "Tidak ada data untuk filter yang dipilih. Coba ganti level/location atau rentang tanggal."⟩]
  ∧ (run_pass inp).sections = []
  ∧ (run_pass inp).halted = true := by
  refine ⟨?_, ?_, ?_⟩ <;>
  · simp only [run_pass]
    rw [if_neg hlocs, if_neg hrange, if_pos hempty]

/-- Witness for C4 at a concrete input whose cases payload is empty. -/
theorem C4_empty_data_short_circuit_witness :
    (run_pass
      { levels := ["Country"],
        locations_by_level := [("Country", ["Indonesia"])],
        level := "Country", chosen_loc := none,
        start_date := ⟨2023, 1, 1⟩, end_date := ⟨2023, 2, 1⟩,
        cases_data := [] }).notices =
      [⟨NoticeKind.warning,
        "Tidak ada data untuk filter yang dipilih. Coba ganti level/location atau rentang tanggal."⟩]
  ∧ (run_pass
      { levels := ["Country"],
        locations_by_level := [("Country", ["Indonesia"])],
        level := "Country", chosen_loc := none,
        start_date := ⟨2023, 1, 1⟩, end_date := ⟨2023, 2, 1⟩,
        cases_data := [] }).sections = []
  ∧ (run_pass
      { levels := ["Country"],
        locations_by_level := [("Country", ["Indonesia"])],
        level := "Country", chosen_loc := none,
        start_date := ⟨2023, 1, 1⟩, end_date := ⟨2023, 2, 1⟩,
        cases_data := [] }).halted = true :=
  C4_empty_data_short_circuit _ (by decide) (by decide) (Or.inl (by decide))

/-- C9 counterexample: when the caller of `fetch_cases` omits `limit`,
the request carries `limit=6000`, not `limit=8000`, refuting the claim as
stated. -/
theorem C9_default_limit_counterexample :
    (fetch_cases_params_default "Country" "Indonesia" ⟨2023, 1, 1⟩ ⟨2023, 2, 1⟩).limit = 6000
  ∧ ¬ (fetch_cases_params_default "Country" "Indonesia" ⟨2023, 1, 1⟩ ⟨2023, 2, 1⟩).limit = 8000 := by
  decide

/-- C9 amended: the cases request bounds its row count with a `limit`
parameter; the function's default is 6000 when the caller omits it, and
the dashboard's own call supplies `limit=8000` explicitly, so every
evaluation pass that reaches the fetch stage issues the cases request
with `limit=8000`. -/
theorem C9_limit_parameter (inp : PassInput)
    (hlocs : lookupLevel inp.locations_by_level inp.level ≠ [])
    (hrange : ¬ inp.end_date.num < inp.start_date.num) :
    fetch_cases_default_limit = 6000
  ∧ (∀ level location : String, ∀ s e : Date,
      (fetch_cases_params_default level location s e).limit = 6000)
  ∧ (∃ location : String,
      (run_pass inp).fetches =
        [FetchCall.summary inp.level location inp.start_date.iso inp.end_date.iso,
         FetchCall.cases inp.level location inp.start_date.iso inp.end_date.iso 8000]) := by
  refine ⟨rfl, fun _ _ _ _ => rfl, ?_⟩
  refine ⟨(match inp.chosen_loc with
    | some l =>
      if l ∈ lookupLevel inp.locations_by_level inp.level then l
      else default_loc (lookupLevel inp.locations_by_level inp.level)
    | none => default_loc (lookupLevel inp.locations_by_level inp.level)), ?_⟩
  by_cases hempty : (fetch_cases_table inp.cases_data).rows = [] ∨
      (fetch_cases_table inp.cases_data).cols = []
  · simp only [run_pass]
    rw [if_neg hlocs, if_neg hrange, if_pos hempty]
  · simp only [run_pass]
    rw [if_neg hlocs, if_neg hrange, if_neg hempty]

/-- Witness for C9 amended at a concrete input. -/
theorem C9_limit_parameter_witness :
    fetch_cases_default_limit = 6000
  ∧ (∀ level location : String, ∀ s e : Date,
      (fetch_cases_params_default level location s e).limit = 6000)
  ∧ (∃ location : String,
      (run_pass
        { levels := ["Country"],
          locations_by_level := [("Country", ["Indonesia"])],
          level := "Country", chosen_loc := none,
          start_date := ⟨2023, 1, 1⟩, end_date := ⟨2023, 2, 1⟩,
          cases_data := [] }).fetches =
        [FetchCall.summary "Country" location
          (Date.iso ⟨2023, 1, 1⟩) (Date.iso ⟨2023, 2, 1⟩),
         FetchCall.cases "Country" location
          (Date.iso ⟨2023, 1, 1⟩) (Date.iso ⟨2023, 2, 1⟩) 8000]) :=
  C9_limit_parameter _ (by decide) (by decide)

theorem parseQuoted_cons (c : Char) (cs : List Char) :
    parseQuoted (c :: cs) =
      if c == '"' then
        match cs with
        | c2 :: cs2 =>
          if c2 == '"' then
            ('"' :: (parseQuoted cs2).1, (parseQuoted cs2).2)
          else ([], cs)
        | [] => ([], [])
      else
        (c :: (parseQuoted cs).1, (parseQuoted cs).2) := by
  cases cs with
  | nil => by_cases h : c == '"' <;> simp [parseQuoted, h]
  | cons c2 cs2 =>
    by_cases h : c == '"' <;> by_cases h2 : c2 == '"' <;>
      simp [parseQuoted, h, h2]

theorem parseQuoted_escape : ∀ (s rest : List Char),
    (∀ t, rest ≠ '"' :: t) →
    parseQuoted (escapeQuotes s ++ '"' :: rest) = (s, rest)
  | [], rest, h => by
    simp only [escapeQuotes, List.nil_append]
    rw [parseQuoted_cons]
    simp only [beq_self_eq_true, if_true]
    cases rest with
    | nil => rfl
    | cons r rs =>
      have hr : (r == '"') = false := by
        by_contra hb
        have : r = '"' := by
          have := eq_of_beq (a := r) (b := '"')
          cases hrb : r == '"' with
          | true => exact this hrb
          | false => exact absurd hrb hb
        exact h rs (by rw [this])
      simp [hr]
  | c :: s, rest, h => by
    by_cases hc : c = '"'
    · subst hc
      have he : escapeQuotes ('"' :: s) = '"' :: '"' :: escapeQuotes s := by
        simp [escapeQuotes]
      rw [he, List.cons_append, List.cons_append, parseQuoted_cons]
      simp only [beq_self_eq_true, if_true]
      rw [parseQuoted_escape s rest h]
    · have hcb : (c == '"') = false := by simp [hc]
      have he : escapeQuotes (c :: s) = c :: escapeQuotes s := by
        simp [escapeQuotes, hcb]
      rw [he, List.cons_append, parseQuoted_cons, hcb]
      simp only [Bool.false_eq_true, if_false]
      rw [parseQuoted_escape s rest h]

theorem parseUnquoted_append : ∀ (s rest : List Char),
    (∀ c ∈ s, ¬(c = ',' ∨ c = '\n')) →
    (rest = [] ∨ ∃ t, rest = ',' :: t ∨ rest = '\n' :: t) →
    parseUnquoted (s ++ rest) = (s, rest)
  | [], rest, _, hrest => by
    rcases hrest with h | ⟨t, h | h⟩ <;> subst h <;> simp [parseUnquoted]
  | c :: s, rest, hs, hrest => by
    have hc : ¬(c = ',' ∨ c = '\n') := hs c (List.mem_cons_self c s)
    have h1 : c ≠ ',' := fun hh => hc (Or.inl hh)
    have h2 : c ≠ '\n' := fun hh => hc (Or.inr hh)
    have hcb : (c == ',' || c == '\n') = false := by simp [h1, h2]
    simp only [List.cons_append, parseUnquoted, hcb, Bool.false_eq_true,
      if_false, List.append_eq]
    rw [parseUnquoted_append s rest
      (fun x hx => hs x (List.mem_cons_of_mem c hx)) hrest]

theorem parseCell_render (s : String) (rest : List Char)
    (hrest : rest = [] ∨ ∃ t, rest = ',' :: t ∨ rest = '\n' :: t) :
    parseCell (renderCellChars s ++ rest) = (s.data, rest) := by
  have hnq : ∀ t, rest ≠ '"' :: t := by
    rcases hrest with h | ⟨t, h | h⟩ <;> subst h <;> intro u hu <;> simp at hu
  unfold renderCellChars
  by_cases hq : needsQuote s
  · simp only [hq, if_true]
    have hshape : ('"' :: (escapeQuotes s.data ++ ['"'])) ++ rest =
        '"' :: (escapeQuotes s.data ++ '"' :: rest) := by simp
    rw [hshape]
    have hcell : parseCell ('"' :: (escapeQuotes s.data ++ '"' :: rest)) =
        parseQuoted (escapeQuotes s.data ++ '"' :: rest) := by
      simp [parseCell]
    rw [hcell, parseQuoted_escape s.data rest hnq]
  · simp only [hq, Bool.false_eq_true, if_false]
    have hnone : ∀ c ∈ s.data, ¬(c = ',' ∨ c = '\n') := by
      intro c hcmem hcor
      have : s.data.any (fun c => c == ',' || c == '"' || c == '\n') = true := by
        rw [List.any_eq_true]
        refine ⟨c, hcmem, ?_⟩
        rcases hcor with h | h <;> subst h <;> rfl
      exact hq this
    cases hsd : s.data with
    | nil =>
      rcases hrest with h | ⟨t, h | h⟩ <;> subst h <;> simp [parseCell, parseUnquoted]
    | cons c cs' =>
      have hcq : (c == '"') = false := by
        by_contra hb
        have hc : c = '"' := by
          cases hrb : c == '"' with
          | true => exact eq_of_beq hrb
          | false => exact absurd hrb hb
        subst hc
        apply hq
        unfold needsQuote
        rw [hsd, List.any_eq_true]
        exact ⟨'"', List.mem_cons_self _ _, rfl⟩
      have : parseCell ((c :: cs') ++ rest) = parseUnquoted ((c :: cs') ++ rest) := by
        simp [parseCell, hcq]
      rw [this, parseUnquoted_append (c :: cs') rest (hsd ▸ hnone) hrest]

theorem parseCsvList_render_row : ∀ (cells : List String) (rest : List Char),
    cells ≠ [] →
    (rest = [] ∨ ∃ t, rest = '\n' :: t) →
    parseCsvList (renderRowChars cells ++ rest) =
      (match rest with
       | [] => [cells]
       | _ :: t => cells :: parseCsvList t)
  | [], _, hne, _ => absurd rfl hne
  | [c], rest, _, hrest => by
    have hstop : rest = [] ∨ ∃ t, rest = ',' :: t ∨ rest = '\n' :: t := by
      rcases hrest with h | ⟨t, h⟩
      · exact Or.inl h
      · exact Or.inr ⟨t, Or.inr h⟩
    rw [show renderRowChars [c] = renderCellChars c from rfl]
    rw [parseCsvList]
    rw [parseCell_render c rest hstop]
    rcases hrest with h | ⟨t, h⟩ <;> subst h <;> rfl
  | c :: c2 :: cs, rest, _, hrest => by
    have hrow : renderRowChars (c :: c2 :: cs) =
        renderCellChars c ++ ',' :: renderRowChars (c2 :: cs) := rfl
    rw [hrow, List.append_assoc]
    rw [parseCsvList]
    rw [show (',' :: renderRowChars (c2 :: cs)) ++ rest =
      ',' :: (renderRowChars (c2 :: cs) ++ rest) from rfl]
    rw [parseCell_render c (',' :: (renderRowChars (c2 :: cs) ++ rest))
      (Or.inr ⟨renderRowChars (c2 :: cs) ++ rest, Or.inl rfl⟩)]
    simp only []
    rw [parseCsvList_render_row (c2 :: cs) rest (by simp) hrest]
    rcases hrest with h | ⟨t, h⟩ <;> subst h <;> rfl

theorem parseCsvList_render : ∀ rows : List (List String),
    rows ≠ [] → (∀ r ∈ rows, r ≠ []) →
    parseCsvList (renderCsvChars rows) = rows
  | [], hne, _ => absurd rfl hne
  | [r], _, hcells => by
    have : renderCsvChars [r] = renderRowChars r ++ [] := by
      simp [renderCsvChars]
    rw [this, parseCsvList_render_row r [] (hcells r (by simp)) (Or.inl rfl)]
  | r :: r2 :: rs, _, hcells => by
    have hshape : renderCsvChars (r :: r2 :: rs) =
        renderRowChars r ++ '\n' :: renderCsvChars (r2 :: rs) := rfl
    rw [hshape, parseCsvList_render_row r ('\n' :: renderCsvChars (r2 :: rs))
      (hcells r (by simp)) (Or.inr ⟨renderCsvChars (r2 :: rs), rfl⟩)]
    show r :: parseCsvList (renderCsvChars (r2 :: rs)) = r :: r2 :: rs
    rw [parseCsvList_render (r2 :: rs) (by simp)
      (fun x hx => hcells x (List.mem_cons_of_mem r hx))]

theorem dateKeyLe_trans (a b c : Option Nat) :
    dateKeyLe a b → dateKeyLe b c → dateKeyLe a c := by
  cases a <;> cases b <;> cases c <;> simp [dateKeyLe] <;> omega

theorem dateKeyLe_total (a b : Option Nat) :
    dateKeyLe a b || dateKeyLe b a := by
  cases a <;> cases b <;> simp [dateKeyLe] <;> omega

theorem sort_values_date_keyerror (t : Table) (h : "date" ∉ t.cols) :
    sort_values_date t = none ∧ export_csv_string t = none
      ∧ export_csv_bytes t = none := by
  have hs : sort_values_date t = none := by
    unfold sort_values_date
    rw [if_neg h]
  refine ⟨hs, ?_, ?_⟩
  · unfold export_csv_string
    rw [hs]
    rfl
  · unfold export_csv_bytes export_csv_string
    rw [hs]
    rfl

/-- C8: for every non-empty, well-formed case table carrying the `date`
column the sort runs on, the CSV export succeeds and is the serialization
of the full record set sorted ascending by date (missing dates last) under
the original column set with a header row; parsing it back yields exactly
the header followed by the sorted data rows, hence an equal column set and
an equal row count; the sorted rows are a permutation of the input rows
and are pairwise ordered by date; the downloaded bytes are the UTF-8
encoding of that text; and the file name follows
`PHARS_Report_{level}_{location}_{start}_{end}.csv` with ISO-8601 dates.
Without the `date` column the sort raises instead (`sort_values_date`
returns `none`) and no export is produced. -/
theorem C8_export_csv_roundtrip (t : Table) (level location : String)
    (s e : Date)
    (hdate : "date" ∈ t.cols)
    (hrows : t.rows ≠ [])
    (halign : ∀ r ∈ t.rows, r.length = t.cols.length) :
    sort_values_date t = some (sorted_by_date t)
  ∧ export_csv_string t =
      some (String.mk (renderCsvChars (t.cols :: export_cell_rows t)))
  ∧ parseCsv (String.mk (renderCsvChars (t.cols :: export_cell_rows t))) =
      t.cols :: export_cell_rows t
  ∧ (parseCsv (String.mk (renderCsvChars
      (t.cols :: export_cell_rows t)))).head? = some t.cols
  ∧ (parseCsv (String.mk (renderCsvChars
      (t.cols :: export_cell_rows t)))).length = t.rows.length + 1
  ∧ (export_cell_rows t).length = t.rows.length
  ∧ List.Perm (sorted_by_date t).rows t.rows
  ∧ (sorted_by_date t).cols = t.cols
  ∧ List.Pairwise
      (fun a b => dateKeyLe (rowDate t.cols a) (rowDate t.cols b) = true)
      (sorted_by_date t).rows
  ∧ export_csv_bytes t =
      some (String.mk (renderCsvChars (t.cols :: export_cell_rows t))).toUTF8
  ∧ export_file_name level location s e =
      "PHARS_Report_" ++ level ++ "_" ++ location ++ "_" ++ s.iso ++ "_" ++
        e.iso ++ ".csv" := by
  have hcols : t.cols ≠ [] := by
    intro hnil
    rw [hnil] at hdate
    exact absurd hdate (List.not_mem_nil _)
  have hsort : sort_values_date t = some (sorted_by_date t) := by
    unfold sort_values_date
    rw [if_pos hdate]
  have hperm : List.Perm (sorted_by_date t).rows t.rows :=
    List.mergeSort_perm t.rows _
  have hlen2 : (export_cell_rows t).length = t.rows.length := by
    unfold export_cell_rows
    rw [List.length_map]
    exact hperm.length_eq
  have hmain : parseCsv (String.mk (renderCsvChars
      (t.cols :: export_cell_rows t))) = t.cols :: export_cell_rows t := by
    show parseCsvList (renderCsvChars (t.cols :: export_cell_rows t)) =
      t.cols :: export_cell_rows t
    apply parseCsvList_render
    · simp
    · intro r hr
      rcases List.mem_cons.mp hr with h | h
      · subst h; exact hcols
      · rcases List.mem_map.mp h with ⟨row, hrow, hmap⟩
        have hmem : row ∈ t.rows := hperm.mem_iff.mp hrow
        have : row.length = t.cols.length := halign row hmem
        intro hnil
        subst hmap
        rw [List.map_eq_nil_iff] at hnil
        subst hnil
        simp at this
        exact hcols (List.length_eq_zero.mp this.symm)
  have hstring : export_csv_string t =
      some (String.mk (renderCsvChars (t.cols :: export_cell_rows t))) := by
    unfold export_csv_string
    rw [hsort]
    rfl
  refine ⟨hsort, hstring, hmain, by rw [hmain]; rfl, ?_, hlen2, hperm, rfl,
    ?_, ?_, rfl⟩
  · rw [hmain]
    simp [hlen2]
  · exact List.sorted_mergeSort
      (fun a b c => dateKeyLe_trans (rowDate t.cols a) (rowDate t.cols b)
        (rowDate t.cols c))
      (fun a b => dateKeyLe_total (rowDate t.cols a) (rowDate t.cols b))
      t.rows
  · unfold export_csv_bytes
    rw [hstring]
    rfl

/-- Witness for C8 at a concrete two-row table (rows given out of date
order, one numeric cell missing) and the spec's date range. -/
theorem C8_export_csv_roundtrip_witness :
    sort_values_date c8_df = some (sorted_by_date c8_df)
  ∧ export_csv_string c8_df =
      some (String.mk (renderCsvChars (c8_df.cols :: export_cell_rows c8_df)))
  ∧ parseCsv (String.mk (renderCsvChars
      (c8_df.cols :: export_cell_rows c8_df))) =
      c8_df.cols :: export_cell_rows c8_df
  ∧ (parseCsv (String.mk (renderCsvChars
      (c8_df.cols :: export_cell_rows c8_df)))).head? = some c8_df.cols
  ∧ (parseCsv (String.mk (renderCsvChars
      (c8_df.cols :: export_cell_rows c8_df)))).length =
      c8_df.rows.length + 1
  ∧ (export_cell_rows c8_df).length = c8_df.rows.length
  ∧ List.Perm (sorted_by_date c8_df).rows c8_df.rows
  ∧ (sorted_by_date c8_df).cols = c8_df.cols
  ∧ List.Pairwise
      (fun a b => dateKeyLe (rowDate c8_df.cols a)
        (rowDate c8_df.cols b) = true)
      (sorted_by_date c8_df).rows
  ∧ export_csv_bytes c8_df =
      some (String.mk (renderCsvChars
        (c8_df.cols :: export_cell_rows c8_df))).toUTF8
  ∧ export_file_name "Country" "Indonesia" ⟨2023, 1, 1⟩ ⟨2023, 2, 1⟩ =
      "PHARS_Report_" ++ "Country" ++ "_" ++ "Indonesia" ++ "_" ++
        (Date.iso ⟨2023, 1, 1⟩) ++ "_" ++ (Date.iso ⟨2023, 2, 1⟩) ++ ".csv" :=
  C8_export_csv_roundtrip c8_df "Country" "Indonesia" ⟨2023, 1, 1⟩
    ⟨2023, 2, 1⟩ (by decide) (by decide) (by decide)

end PHARS
